import Mathlib

/-!
Verification of the Firefly repository (Flask front-ends plus a RAG-based
code-generation pipeline) against its natural-language specification.

Python text is embedded as lists of characters so that every operation of
the source (split, rsplit, lower, startswith, strip, join) is an executable
Lean function with the same behaviour on the character sequence.
-/

/-- Python strings, embedded as their character sequences. -/
abbrev PyStr := List Char

/-- Lowercasing of a Python string, as in str.lower, restricted to the ASCII
range that Char.toLower handles; all characters appearing in the repository
configuration are ASCII. -/
def pyLower (l : PyStr) : PyStr := l.map Char.toLower

/-- The characters of a Python string after the last occurrence of the
character c; for a string containing c this is exactly the last component of
s.rsplit(c, 1), the tail of the one split from the right. -/
def rsplit1_tail (c : Char) (l : PyStr) : PyStr :=
  (l.reverse.takeWhile (fun a => a != c)).reverse

/-- Characters Python str.startswith compares: pre is an initial segment. -/
def pyStartsWith (pre l : PyStr) : Bool :=
  match pre, l with
  | [], _ => true
  | _ :: _, [] => false
  | p :: ps, a :: as_ => (a == p) && pyStartsWith ps as_

/-- Whitespace characters removed by Python str.strip (ASCII subset). -/
def pyIsSpace (c : Char) : Bool :=
  c == ' ' || c == '\t' || c == '\n' || c == '\x0d' || c == '\x0b' || c == '\x0c'

/-- Python str.strip with no arguments: drop whitespace on both ends. -/
def pyStrip (l : PyStr) : PyStr :=
  ((l.dropWhile pyIsSpace).reverse.dropWhile pyIsSpace).reverse

/-- Python s.split(c) for a single-character separator: the list of chunks
between occurrences of c, keeping empty chunks, never empty as a whole. -/
def pySplitOn (c : Char) : PyStr → List PyStr
  | [] => [[]]
  | a :: rest =>
    let r := pySplitOn c rest
    if a = c then [] :: r else (a :: r.headD []) :: r.tail

/-! ## app.py: upload filter, size limit, subprocess spawns, relay routes -/

/-- ALLOWED_EXTENSIONS from app.py, in its literal order. -/
def ALLOWED_EXTENSIONS : List PyStr :=
  ["zip".data, "tar".data, "gz".data, "tgz".data, "tar.gz".data]

/-- allowed_file from app.py: a dot occurs in the filename and the lowercased
text after the last dot is a member of ALLOWED_EXTENSIONS. -/
def allowed_file (filename : PyStr) : Bool :=
  filename.contains '.' &&
    ALLOWED_EXTENSIONS.contains (pyLower (rsplit1_tail '.' filename))

/-- MAX_CONTENT_LENGTH from app.py. -/
def MAX_CONTENT_LENGTH : Nat := 1024 * 1024 * 1024

/-- The slice of the Flask configuration that the claims mention. -/
structure FlaskConfig where
  max_content_length : Nat
deriving DecidableEq

/-- The app.config assignments from app.py. -/
def app_config : FlaskConfig := { max_content_length := MAX_CONTENT_LENGTH }

/-- A rendered template response: HTTP status, template name, error text. -/
structure HtmlResponse where
  status : Nat
  template : String
  error : Option String
deriving DecidableEq

/-- The 413 error handler request_entity_too_large from app.py: it renders
index.html with the fixed message and returns status 413. -/
def request_entity_too_large : HtmlResponse :=
  { status := 413, template := "index.html",
    error := some "File too large. Maximum size is 1 GiB." }

/-- Modelled Flask/Werkzeug semantics: a request whose body length exceeds
the configured MAX_CONTENT_LENGTH is rejected before the route runs and the
registered 413 handler produces the response; otherwise the route's normal
response is returned. -/
def dispatch_request (normal : HtmlResponse) (content_length : Nat) : HtmlResponse :=
  if app_config.max_content_length < content_length then request_entity_too_large
  else normal

/-- How a spawned subprocess's output is collected in app.py: either a
blocking process.communicate call, or the reader thread plus queue relay of
handle_process_io. -/
inductive StreamingMode where
  | communicate
  | threadQueue
deriving DecidableEq

/-- The observable shape of a subprocess spawn: its argument vector, how its
output is streamed back, and whether stderr is merged into stdout. -/
structure SpawnSpec where
  command : List String
  streaming : StreamingMode
  merge_stderr_into_stdout : Bool
deriving DecidableEq

/-- run_main_script from app.py: builds the python main.py command for the
two process types, collects output with process.communicate, and spawns
nothing for any other process type. -/
def run_main_script_spawn (process_type input_dir output_dir documentation_dir : String) :
    Option SpawnSpec :=
  if process_type = "documentation" then
    some { command := ["python", "main.py", "--mode", "documentation",
                       "--input_dir", input_dir, "--output_dir", output_dir],
           streaming := .communicate, merge_stderr_into_stdout := false }
  else if process_type = "code_generation" then
    some { command := ["python", "main.py", "--mode", "code_generation",
                       "--documentation_dir", documentation_dir, "--output_dir", output_dir],
           streaming := .communicate, merge_stderr_into_stdout := false }
  else none

/-- os.path.join for the relative paths the app builds. -/
def pathJoin (a b : String) : String := a ++ "/" ++ b

/-- The per-execution output directory used by the run_code route. -/
def output_dir_of (output_id : String) : String :=
  pathJoin "outputs" (output_id ++ "_output")

/-- The spawn performed by the run_code route of app.py: python on the
selected file, stderr redirected to stdout, output streamed through the
thread-and-queue relay installed by handle_process_io. -/
def run_code_spawn (output_id filename : String) : SpawnSpec :=
  { command := ["python", pathJoin (output_dir_of output_id) filename],
    streaming := .threadQueue, merge_stderr_into_stdout := true }

/-- Per-execution state stored in running_processes by the run_code route. -/
structure ProcData where
  running : Bool
  output_queue : List String
  input_queue : List String
  terminated : Bool
deriving DecidableEq

/-- The running_processes dictionary, as an association list. -/
abbrev ProcTable := List (String × ProcData)

/-- Dictionary update for a key already present. -/
def tableSet (ps : ProcTable) (k : String) (v : ProcData) : ProcTable :=
  ps.map (fun p => if p.1 = k then (k, v) else p)

/-- A jsonify response: HTTP status plus the fields the three relay routes
ever populate. -/
structure JsonResponse where
  status : Nat
  error : Option String
  output : Option String
  running : Option Bool
  success : Option Bool
deriving DecidableEq

/-- A jsonify error body with the given status. -/
def jsonError (status : Nat) (msg : String) : JsonResponse :=
  { status := status, error := some msg, output := none, running := none, success := none }

/-- check_output from app.py: 404 for an unknown execution id, otherwise
drain the output queue and report the drained text and the running flag. -/
def check_output (ps : ProcTable) (execution_id : String) : ProcTable × JsonResponse :=
  match ps.lookup execution_id with
  | none => (ps, jsonError 404 "Execution not found")
  | some pd =>
    (tableSet ps execution_id { pd with output_queue := [] },
     { status := 200, error := none, output := some (String.join pd.output_queue),
       running := some pd.running, success := none })

/-- send_input from app.py: 404 for an unknown execution id, 400 when the
stored running flag is false, otherwise enqueue the input text. -/
def send_input (ps : ProcTable) (execution_id input_data : String) : ProcTable × JsonResponse :=
  match ps.lookup execution_id with
  | none => (ps, jsonError 404 "Execution not found")
  | some pd =>
    if !pd.running then (ps, jsonError 400 "Process is not running")
    else
      (tableSet ps execution_id { pd with input_queue := pd.input_queue ++ [input_data] },
       { status := 200, error := none, output := none, running := none, success := some true })

/-- stop_execution from app.py: 404 for an unknown execution id, 400 when the
stored running flag is false, otherwise terminate the process and clear the
running flag. -/
def stop_execution (ps : ProcTable) (execution_id : String) : ProcTable × JsonResponse :=
  match ps.lookup execution_id with
  | none => (ps, jsonError 404 "Execution not found")
  | some pd =>
    if !pd.running then (ps, jsonError 400 "Process is not running")
    else
      (tableSet ps execution_id { pd with terminated := true, running := false },
       { status := 200, error := none, output := none, running := none, success := some true })

/-! ## generate_code.py: documents, RAG pipeline, agent configuration -/

/-- pathlib Path.name: the final path component. -/
def pathName (p : PyStr) : PyStr := rsplit1_tail '/' p

/-- pathlib Path.suffix on the final component: the last dot and what
follows it, provided the dot is neither the first nor the last character of
the component; otherwise the empty string. -/
def pySuffix (name : PyStr) : PyStr :=
  let back := rsplit1_tail '.' name
  let rest := (name.reverse.dropWhile (fun a => a != '.')).reverse
  if 2 ≤ rest.length ∧ back ≠ [] then '.' :: back else []

/-- A langchain Document: page content plus string metadata. -/
structure Document where
  page_content : String
  metadata : List (String × String)
deriving DecidableEq

/-- metadata.get with a default, as on a Python dict. -/
def metaGetD (m : List (String × String)) (k d : String) : String :=
  (m.lookup k).getD d

/-- What the filesystem holds at a path, as load_documents observes it: the
path may not exist, may fail to read or decode as UTF-8, or yields text. -/
inductive FileState where
  | absent
  | unreadable
  | text (content : String)

/-- The Document built by CodeGenerationRAG.load_documents for one path:
content plus source, filename and file_type metadata, the latter from the
lowercased pathlib suffix with its leading dot removed, or unknown when the
path has no suffix. str(Path(p)) is modelled as p itself. -/
def mkDocument (doc_path : String) (content : String) : Document :=
  let name := pathName doc_path.data
  let file_extension := pyLower (pySuffix name)
  { page_content := content,
    metadata := [("source", doc_path), ("filename", String.mk name),
                 ("file_type",
                  if file_extension ≠ [] then String.mk (file_extension.drop 1)
                  else "unknown")] }

/-- CodeGenerationRAG.load_documents: iterate over docs_paths in order,
skip a path that does not exist, skip a path whose read fails, and append a
Document for each successfully read path. -/
def load_documents (fs : String → FileState) (docs_paths : List String) : List Document :=
  docs_paths.foldl (fun documents doc_path =>
    match fs doc_path with
    | .absent => documents
    | .unreadable => documents
    | .text content => documents ++ [mkDocument doc_path content]) []

/-- The three text splitter classes instantiated by setup_vectorstore. -/
inductive SplitterKind where
  | markdown
  | python
  | recursiveCharacter
deriving DecidableEq

/-- A configured langchain text splitter: class plus the two size options. -/
structure TextSplitter where
  kind : SplitterKind
  chunk_size : Nat
  chunk_overlap : Nat
deriving DecidableEq

/-- Modelled langchain semantics: split_documents chunks each document
independently and concatenates the chunks in document order; how one
document is chunked is an abstract parameter splitDoc. -/
def split_documents (splitDoc : TextSplitter → Document → List Document)
    (splitter : TextSplitter) (documents : List Document) : List Document :=
  documents.flatMap (splitDoc splitter)

/-- A FAISS vector store: the documents it was built from, plus an abstract
similarity search with scores. -/
structure VectorStore where
  docs : List Document
  search : String → Nat → List (Document × Int)

/-- Modelled FAISS.from_documents: records exactly the documents handed
over; the similarity search semantics (embeddings, index) is the abstract
parameter searchSem. -/
def faiss_from_documents (searchSem : List Document → String → Nat → List (Document × Int))
    (documents : List Document) : VectorStore :=
  { docs := documents, search := searchSem documents }

/-- The state of a CodeGenerationRAG instance that the claims mention. -/
structure CodeGenerationRAG where
  docs_paths : List String
  vectorstore : Option VectorStore

/-- CodeGenerationRAG.setup_vectorstore: load the documents, raise
ValueError when none loaded, group by the file_type metadata, split each
group with its specialized splitter (all with chunk size 3000, overlap 100,
skipping empty groups), and build the FAISS store from the chunk list. -/
def setup_vectorstore (searchSem : List Document → String → Nat → List (Document × Int))
    (splitDoc : TextSplitter → Document → List Document)
    (fs : String → FileState) (self : CodeGenerationRAG) :
    Except String CodeGenerationRAG :=
  let documents := load_documents fs self.docs_paths
  if documents = [] then
    .error "No valid documents found to create the vector store."
  else
    let markdown_splitter : TextSplitter := ⟨.markdown, 3000, 100⟩
    let python_splitter : TextSplitter := ⟨.python, 3000, 100⟩
    let default_splitter : TextSplitter := ⟨.recursiveCharacter, 3000, 100⟩
    let groups := documents.foldl
      (fun (g : List Document × List Document × List Document) doc =>
        let file_type := metaGetD doc.metadata "file_type" "unknown"
        if file_type = "md" then (g.1 ++ [doc], g.2.1, g.2.2)
        else if file_type = "py" then (g.1, g.2.1 ++ [doc], g.2.2)
        else (g.1, g.2.1, g.2.2 ++ [doc]))
      ([], [], [])
    let chunks :=
      (if groups.1 ≠ [] then split_documents splitDoc markdown_splitter groups.1 else []) ++
      (if groups.2.1 ≠ [] then split_documents splitDoc python_splitter groups.2.1 else []) ++
      (if groups.2.2 ≠ [] then split_documents splitDoc default_splitter groups.2.2 else [])
    .ok { self with vectorstore := some (faiss_from_documents searchSem chunks) }

/-- One formatted similarity search result, as the dictionary built by
query_vectorstore. FAISS scores are floats; no arithmetic is performed on
them here, so they are modelled as integers and the float conversion as the
identity. -/
structure QueryResult where
  content : String
  score : Int
  source : String
  filename : String
deriving DecidableEq

/-- CodeGenerationRAG.query_vectorstore: ValueError before the store is set
up, otherwise format each similarity search result in order, with source
and filename defaulting to Unknown when absent from the metadata. -/
def query_vectorstore (self : CodeGenerationRAG) (query : String) (k : Nat) :
    Except String (List QueryResult) :=
  match self.vectorstore with
  | none => .error "Vector store is not initialized. Call setup_vectorstore first."
  | some vs =>
    .ok ((vs.search query k).map (fun ds =>
      { content := ds.1.page_content, score := ds.2,
        source := metaGetD ds.1.metadata "source" "Unknown",
        filename := metaGetD ds.1.metadata "filename" "Unknown" }))

/-- The function wired into each tool of create_agent: the closure over the
vector store instance made by query_vectorstore_tool, or the Python
execution closure made by execute_python_code_tool. -/
inductive ToolImpl where
  | queryDocsForCode (rag : CodeGenerationRAG)
  | executeCode

/-- A moya BaseTool as configured in create_agent. -/
structure BaseTool where
  name : String
  description : String
  fn : ToolImpl
  parameter_names : List String
  required : List String

/-- A moya ToolRegistry: register_tool appends to the tool list. -/
structure ToolRegistry where
  tools : List BaseTool

/-- The Azure OpenAI agent configuration assembled by create_agent. -/
structure Agent where
  agent_name : String
  description : String
  model_name : String
  tool_registry : ToolRegistry
  system_prompt : String
  max_iterations : Nat

/-- The SimpleOrchestrator set up by create_agent. -/
structure Orchestrator where
  default_agent_name : String
  registered_agents : List String

/-- create_agent from generate_code.py: registers the RAG query tool and the
Python execution tool, extends the system prompt with the example context
when present, builds the agent with model o3-mini, sets max_iterations to
15, and registers the agent under code_generation_agent. The text returned
by get_system_prompt is the parameter system_prompt_text. -/
def create_agent (rag : CodeGenerationRAG) (example_context system_prompt_text : String) :
    Orchestrator × Agent :=
  let registry0 : ToolRegistry := { tools := [] }
  let rag_tool : BaseTool :=
    { name := "query_documentation",
      description := "Tool to query the codebase documentation for information that can help with code generation",
      fn := .queryDocsForCode rag,
      parameter_names := ["query", "num_results"],
      required := ["query"] }
  let registry1 : ToolRegistry := { tools := registry0.tools ++ [rag_tool] }
  let execution_tool : BaseTool :=
    { name := "execute_python",
      description := "Tool to execute Python code and see the output or error message",
      fn := .executeCode,
      parameter_names := ["code"],
      required := ["code"] }
  let registry2 : ToolRegistry := { tools := registry1.tools ++ [execution_tool] }
  let system_prompt :=
    if example_context ≠ "" then
      system_prompt_text ++ "\n\nEXAMPLE CODE FILES FOR REFERENCE:\n" ++ example_context
    else system_prompt_text
  let agent : Agent :=
    { agent_name := "code_generation_agent",
      description := "An agent that generates code based on documentation and user requirements",
      model_name := "o3-mini",
      tool_registry := registry2,
      system_prompt := system_prompt,
      max_iterations := 15 }
  let orchestrator : Orchestrator :=
    { default_agent_name := "code_generation_agent",
      registered_agents := [agent.agent_name] }
  (orchestrator, agent)

/-- Concrete similarity search semantics used by witnesses. -/
def exampleSearch : List Document → String → Nat → List (Document × Int) :=
  fun _ _ _ => []

/-- Concrete per-document chunker used by witnesses: one chunk per doc. -/
def exampleSplit : TextSplitter → Document → List Document := fun _ d => [d]

/-- Concrete filesystem used by witnesses: every path reads as hello. -/
def exampleFs : String → FileState := fun _ => .text "hello"

/-- Concrete RAG instance before setup, used by witnesses. -/
def exampleRag : CodeGenerationRAG := { docs_paths := ["a.md"], vectorstore := none }

/-- Concrete document used by witnesses, with no filename metadata. -/
def exampleDoc : Document := { page_content := "content", metadata := [("source", "docs/a.md")] }

/-- Concrete vector store used by witnesses. -/
def exampleStore : VectorStore := { docs := [], search := fun _ _ => [(exampleDoc, 7)] }

/-- Concrete RAG instance whose store is set up, used by witnesses. -/
def exampleRagReady : CodeGenerationRAG := { docs_paths := [], vectorstore := some exampleStore }

/-! ## generate_code.py: the code block extraction in generate_solution -/

/-- The loop state of the code-block extraction in generate_solution:
whether the scan is inside a fence, the lines of the block being collected,
the recorded language tag, and the output accumulated so far. -/
structure ExtractState where
  in_code_block : Bool
  current_code_block : List PyStr
  language : PyStr
  extracted_code : PyStr

/-- The header line emitted before a block when the recorded language tag is
nonempty. -/
def blockHeader (language : PyStr) : PyStr :=
  if language ≠ [] then "# Code block - ".data ++ language ++ ['\n'] else []

/-- One iteration of the line loop in generate_solution: an opening fence
records the language tag when the line is longer than the three backticks, a
closing fence emits the collected nonempty block (header, lines joined by
newlines, blank line) and resets the language, and any line inside a fence
is collected. -/
def extractStep (st : ExtractState) (line : PyStr) : ExtractState :=
  if pyStartsWith "```".data line then
    if st.in_code_block then
      if st.current_code_block ≠ [] then
        { in_code_block := false, current_code_block := [], language := [],
          extracted_code := st.extracted_code ++ blockHeader st.language ++
            List.intercalate ['\n'] st.current_code_block ++ "\n\n".data }
      else { st with in_code_block := false }
    else
      { st with
        in_code_block := true,
        language := if 3 < line.length then pyStrip (line.drop 3) else st.language }
  else if st.in_code_block then
    { st with current_code_block := st.current_code_block ++ [line] }
  else st

/-- The text present after the loop of generate_solution: the accumulated
output plus a final unclosed nonempty block, terminated by one newline. -/
def finalizeExtract (st : ExtractState) : PyStr :=
  st.extracted_code ++
    (if st.current_code_block ≠ [] then
      blockHeader st.language ++ List.intercalate ['\n'] st.current_code_block ++ ['\n']
    else [])

/-- The code-block extraction of generate_solution on the agent's raw
response: run the line loop, append an unclosed block, and fall back to the
fixed message when the result strips to nothing. -/
def extract_code_blocks (raw : PyStr) : PyStr :=
  let lines := pySplitOn '\n' raw
  let final := finalizeExtract (lines.foldl extractStep ⟨false, [], [], []⟩)
  if pyStrip final = [] then "No code blocks were found in the generated solution.".data
  else final

/-- Two-phase reading of the same extraction: parse the line list into the
nonempty closed blocks, each paired with the language recorded when it was
closed, plus an optional unclosed trailing block. The language carries over
an untagged opening fence and over an empty closed block, and resets only
when a nonempty block is emitted. -/
def scanBlocks : List PyStr → Bool → PyStr → List PyStr →
    List (PyStr × List PyStr) × Option (PyStr × List PyStr)
  | [], in_block, language, current =>
    ([], if in_block ∧ current ≠ [] then some (language, current) else none)
  | l :: ls, in_block, language, current =>
    if pyStartsWith "```".data l then
      if in_block then
        if current ≠ [] then
          ((language, current) :: (scanBlocks ls false [] []).1, (scanBlocks ls false [] []).2)
        else scanBlocks ls false language current
      else
        scanBlocks ls true (if 3 < l.length then pyStrip (l.drop 3) else language) current
    else if in_block then scanBlocks ls in_block language (current ++ [l])
    else scanBlocks ls in_block language current

/-- The parse the claim describes: identical to scanBlocks except that a
block's language comes only from its own opening fence, empty when no tag
followed the backticks. -/
def claimScanBlocks : List PyStr → Bool → PyStr → List PyStr →
    List (PyStr × List PyStr) × Option (PyStr × List PyStr)
  | [], in_block, language, current =>
    ([], if in_block ∧ current ≠ [] then some (language, current) else none)
  | l :: ls, in_block, language, current =>
    if pyStartsWith "```".data l then
      if in_block then
        if current ≠ [] then
          ((language, current) :: (claimScanBlocks ls false [] []).1,
           (claimScanBlocks ls false [] []).2)
        else claimScanBlocks ls false [] current
      else
        claimScanBlocks ls true (if 3 < l.length then pyStrip (l.drop 3) else []) current
    else if in_block then claimScanBlocks ls in_block language (current ++ [l])
    else claimScanBlocks ls in_block language current

/-- Rendering of the closed blocks: optional header, the block's lines
joined by newlines, and a blank line after each block. -/
def renderClosedBlocks : List (PyStr × List PyStr) → PyStr
  | [] => []
  | (language, current) :: bs =>
    blockHeader language ++ List.intercalate ['\n'] current ++ "\n\n".data ++
      renderClosedBlocks bs

/-- Rendering of the optional unclosed trailing block. -/
def renderUnclosedBlock : Option (PyStr × List PyStr) → PyStr
  | none => []
  | some (language, current) =>
    blockHeader language ++ List.intercalate ['\n'] current ++ ['\n']

/-- Rendering of a parse result: closed blocks then the unclosed tail. -/
def renderScan (p : List (PyStr × List PyStr) × Option (PyStr × List PyStr)) : PyStr :=
  renderClosedBlocks p.1 ++ renderUnclosedBlock p.2

/-- The final fallback of generate_solution: the fixed message when the
rendered text strips to nothing. -/
def finalizeScanned (e : PyStr) : PyStr :=
  if pyStrip e = [] then "No code blocks were found in the generated solution.".data else e

/-- The extraction as the claim describes it: the blocks are the line runs
strictly between fence lines plus a final unclosed run, and a block gets a
header exactly when a language tag followed its own opening fence. -/
def claim_extract (raw : PyStr) : PyStr :=
  finalizeScanned (renderScan (claimScanBlocks (pySplitOn '\n' raw) false [] []))

/-- The extraction with the amended language rule: a block's header carries
the most recent fence tag not yet consumed by a nonempty closed block. -/
def amended_extract (raw : PyStr) : PyStr :=
  finalizeScanned (renderScan (scanBlocks (pySplitOn '\n' raw) false [] []))

/-! ## main.py: the command line entry point, code generation mode -/

/-- A Python exception relevant to the code mode of main.py. -/
inductive PyError where
  | attributeError (type_name attr_name : String)
deriving DecidableEq

/-- Modelled Python semantics: attribute lookup of docs_paths on a str
object raises AttributeError, since str has no such attribute. -/
def strGetattr (attr_name : String) : Except PyError Unit :=
  .error (.attributeError "str" attr_name)

/-- The filesystem and permissions as main.py observes them. -/
structure Env where
  path_exists : String → Bool
  is_dir : String → Bool
  mkdir_ok : String → Bool
  walk_files : String → List String
  write_ok : String → Bool

/-- The parsed arguments of the code subcommand of main.py. -/
structure CodeArgs where
  docs_dir : String
  examples_dir : Option String
  problem_statement : String
  output_dir : String

/-- How a run of main.py ends: sys.exit with a code, an uncaught exception,
or normal completion having written the listed files. -/
inductive MainOutcome where
  | exited (code : Nat)
  | raised (err : PyError)
  | completed (written_files : List String)
deriving DecidableEq

/-- The code mode branch of main in main.py: validate the documentation and
output directories, collect the markdown and example python files, then call
generate_solution. The call as written is
generate_solution(problem_statement. docs_paths, egs_paths): the period
makes its first argument the attribute access
problem_statement.docs_paths on the problem statement string, which is
evaluated before generate_solution is entered; only if that call returned
would generated_code.py be written into the output directory. -/
def main_code_mode (env : Env) (args : CodeArgs) : MainOutcome :=
  if ¬ (env.path_exists args.docs_dir && env.is_dir args.docs_dir) then .exited 1
  else if ¬ env.path_exists args.output_dir && ¬ env.mkdir_ok args.output_dir then .exited 1
  else if env.path_exists args.output_dir && ¬ env.is_dir args.output_dir then .exited 1
  else
    let docs_paths := (env.walk_files args.docs_dir).filter (fun f => f.endsWith ".md")
    let egs_paths : List String :=
      match args.examples_dir with
      | some d =>
        if env.path_exists d && env.is_dir d then
          (env.walk_files d).filter (fun f => f.endsWith ".py")
        else []
      | none => []
    match strGetattr "docs_paths" with
    | .error e => .raised e
    | .ok _ =>
      let output_file := pathJoin args.output_dir "generated_code.py"
      if env.write_ok output_file then .completed [output_file] else .completed []

/-! ## Theorems about app.py -/

/-- Helper: ASCII lowercasing never produces a dot from a non-dot. -/
theorem toLower_ne_dot (c : Char) (h : c ≠ '.') : Char.toLower c ≠ '.' := by
  unfold Char.toLower
  simp only
  by_cases hc : c.toNat ≥ 65 ∧ c.toNat ≤ 90
  · rw [if_pos hc]
    intro he
    have hval : (c.toNat + 32).isValidChar := Or.inl (by omega)
    have h2 : (Char.ofNat (c.toNat + 32)).toNat = ('.' : Char).toNat := by rw [he]
    have h3 : (Char.ofNat (c.toNat + 32)).toNat = c.toNat + 32 := by
      unfold Char.ofNat
      rw [dif_pos hval]
      rfl
    have hv : ('.' : Char).toNat = 46 := by decide
    omega
  · rw [if_neg hc]; exact h

/-- Helper: the text after the last dot contains no dot. -/
theorem dot_not_mem_rsplit1_tail (f : PyStr) : '.' ∉ rsplit1_tail '.' f := by
  intro h
  rw [rsplit1_tail, List.mem_reverse] at h
  have := List.mem_takeWhile_imp h
  simp at this

/-- Helper: the lowercased text after the last dot is never the string
tar.gz, because that string contains a dot. -/
theorem rsplit1_tail_lower_ne_targz (f : PyStr) :
    pyLower (rsplit1_tail '.' f) ≠ "tar.gz".data := by
  intro h
  have hm : '.' ∈ pyLower (rsplit1_tail '.' f) := by
    rw [h]; decide
  rw [pyLower, List.mem_map] at hm
  obtain ⟨c, hc, hlc⟩ := hm
  by_cases hne : c = '.'
  · exact dot_not_mem_rsplit1_tail f (hne ▸ hc)
  · exact toLower_ne_dot c hne hlc

/-- C9: allowed_file accepts a filename exactly when it contains a dot and
the lowercased text after the last dot is zip, tar, gz or tgz; the
configured multi-part extension tar.gz never decides acceptance because the
compared component contains no dot. -/
theorem allowed_file_spec (f : PyStr) :
    (allowed_file f = true ↔
      (f.contains '.' = true ∧
        pyLower (rsplit1_tail '.' f) ∈
          [ "zip".data, "tar".data, "gz".data, "tgz".data ])) ∧
    pyLower (rsplit1_tail '.' f) ≠ "tar.gz".data := by
  refine ⟨?_, rsplit1_tail_lower_ne_targz f⟩
  rw [allowed_file, Bool.and_eq_true]
  constructor
  · rintro ⟨h1, h2⟩
    refine ⟨h1, ?_⟩
    rw [List.contains_iff_exists_mem_beq] at h2
    obtain ⟨e, he, hbeq⟩ := h2
    have heq : pyLower (rsplit1_tail '.' f) = e := by
      exact eq_of_beq hbeq
    rw [heq]
    simp only [ALLOWED_EXTENSIONS, List.mem_cons, List.not_mem_nil, or_false] at he
    rcases he with h | h | h | h | h
    · simp [h]
    · simp [h]
    · simp [h]
    · simp [h]
    · exact absurd (heq.trans h) (rsplit1_tail_lower_ne_targz f)
  · rintro ⟨h1, h2⟩
    refine ⟨h1, ?_⟩
    rw [List.contains_iff_exists_mem_beq]
    refine ⟨pyLower (rsplit1_tail '.' f), ?_, by simp⟩
    simp only [ALLOWED_EXTENSIONS, List.mem_cons, List.mem_singleton]
    simp only [List.mem_cons, List.mem_singleton] at h2
    tauto

/-- C10: the upload size limit is one GiB: MAX_CONTENT_LENGTH is configured
to 1073741824 bytes and any request body strictly larger is answered by the
413 handler with the fixed message. -/
theorem upload_size_limit :
    MAX_CONTENT_LENGTH = 1073741824 ∧
    app_config.max_content_length = MAX_CONTENT_LENGTH ∧
    ∀ (normal : HtmlResponse) (content_length : Nat),
      MAX_CONTENT_LENGTH < content_length →
      dispatch_request normal content_length =
        { status := 413, template := "index.html",
          error := some "File too large. Maximum size is 1 GiB." } := by
  refine ⟨rfl, rfl, ?_⟩
  intro normal n h
  simp [dispatch_request, app_config, request_entity_too_large, h]

/-- Witness for C10 at a concrete oversized request. -/
theorem upload_size_limit_witness :
    MAX_CONTENT_LENGTH < 1073741825 ∧
    dispatch_request { status := 200, template := "result.html", error := none } 1073741825 =
      { status := 413, template := "index.html",
        error := some "File too large. Maximum size is 1 GiB." } :=
  ⟨by decide, upload_size_limit.2.2 _ 1073741825 (by decide)⟩

/-- C3 counterexample: the spawn whose output is streamed through the thread
and queue relay (the run_code route) does not run python main.py, and the
spawn that does run python main.py (run_main_script) collects output with
communicate, not through the relay. -/
theorem relay_spawn_counterexample :
    (run_code_spawn "abc" "foo.py").streaming = StreamingMode.threadQueue ∧
    (run_code_spawn "abc" "foo.py").command ≠ ["python", "main.py"] ∧
    (run_main_script_spawn "documentation" "indir" "outdir" "").map SpawnSpec.streaming =
      some StreamingMode.communicate := by
  refine ⟨rfl, ?_, rfl⟩
  intro h
  have := congrArg (fun l => l.get? 1) h
  simp [run_code_spawn, pathJoin, output_dir_of] at this

/-- C3 amended: the thread-and-queue relay spawns python on the selected
generated file (with stderr merged into stdout), while the python main.py
spawn of run_main_script always collects output with a blocking communicate
call and never uses the relay. -/
theorem relay_spawn_amended
    (output_id filename process_type input_dir output_dir documentation_dir : String) :
    run_code_spawn output_id filename =
      { command := ["python", pathJoin (output_dir_of output_id) filename],
        streaming := .threadQueue, merge_stderr_into_stdout := true } ∧
    ((run_main_script_spawn process_type input_dir output_dir documentation_dir).map
        SpawnSpec.streaming).getD .communicate = .communicate ∧
    ((run_main_script_spawn process_type input_dir output_dir documentation_dir).map
        (fun s => s.command.take 2)).getD ["python", "main.py"] = ["python", "main.py"] := by
  refine ⟨rfl, ?_, ?_⟩
  all_goals
    simp only [run_main_script_spawn]
    split
    · simp
    · split <;> simp

/-- C7: the three relay routes reject unknown execution ids with a 404 JSON
error and, for send_input and stop_execution, reject executions whose
running flag is false with a 400 JSON error, leaving the table unchanged. -/
theorem relay_routes_error_handling (ps : ProcTable) (execution_id input_data : String) :
    (ps.lookup execution_id = none →
      check_output ps execution_id = (ps, jsonError 404 "Execution not found") ∧
      send_input ps execution_id input_data = (ps, jsonError 404 "Execution not found") ∧
      stop_execution ps execution_id = (ps, jsonError 404 "Execution not found")) ∧
    (∀ pd : ProcData, ps.lookup execution_id = some pd → pd.running = false →
      send_input ps execution_id input_data = (ps, jsonError 400 "Process is not running") ∧
      stop_execution ps execution_id = (ps, jsonError 400 "Process is not running")) := by
  constructor
  · intro h
    refine ⟨?_, ?_, ?_⟩ <;> simp [check_output, send_input, stop_execution, h]
  · intro pd h hr
    constructor <;> simp [send_input, stop_execution, h, hr]

/-- Witness for C7: a concrete table with one stopped process, an unknown id
and the known stopped id. -/
theorem relay_routes_error_handling_witness :
    check_output [("a", ⟨false, [], [], false⟩)] "b" =
      ([("a", ⟨false, [], [], false⟩)], jsonError 404 "Execution not found") ∧
    send_input [("a", ⟨false, [], [], false⟩)] "a" "x" =
      ([("a", ⟨false, [], [], false⟩)], jsonError 400 "Process is not running") ∧
    stop_execution [("a", ⟨false, [], [], false⟩)] "a" =
      ([("a", ⟨false, [], [], false⟩)], jsonError 400 "Process is not running") :=
  ⟨((relay_routes_error_handling [("a", ⟨false, [], [], false⟩)] "b" "x").1 (by decide)).1,
   ((relay_routes_error_handling [("a", ⟨false, [], [], false⟩)] "a" "x").2
      ⟨false, [], [], false⟩ (by decide) rfl).1,
   ((relay_routes_error_handling [("a", ⟨false, [], [], false⟩)] "a" "x").2
      ⟨false, [], [], false⟩ (by decide) rfl).2⟩

/-! ## Theorems about generate_code.py -/

/-- Helper: the document loading loop is a filterMap over the path list. -/
theorem load_documents_go (fs : String → FileState) (paths : List String) (acc : List Document) :
    paths.foldl (fun documents doc_path =>
      match fs doc_path with
      | .absent => documents
      | .unreadable => documents
      | .text content => documents ++ [mkDocument doc_path content]) acc =
    acc ++ paths.filterMap (fun p =>
      match fs p with
      | .text content => some (mkDocument p content)
      | _ => none) := by
  induction paths generalizing acc with
  | nil => simp
  | cons p ps ih =>
    cases h : fs p with
    | absent => simp [List.foldl_cons, h, ih, List.filterMap_cons]
    | unreadable => simp [List.foldl_cons, h, ih, List.filterMap_cons]
    | text c => simp [List.foldl_cons, h, ih, List.filterMap_cons]

/-- C5: load_documents returns one Document per readable path, in input
order, skipping absent and unreadable paths; each Document carries the path
as source, the final component as filename, and as file_type the lowercased
pathlib suffix without its leading dot, or unknown when there is none. -/
theorem load_documents_spec (fs : String → FileState) (docs_paths : List String) :
    load_documents fs docs_paths =
      docs_paths.filterMap (fun p =>
        match fs p with
        | .text content => some (mkDocument p content)
        | _ => none) ∧
    ∀ p c,
      (mkDocument p c).page_content = c ∧
      metaGetD (mkDocument p c).metadata "source" "" = p ∧
      metaGetD (mkDocument p c).metadata "filename" "" = String.mk (pathName p.data) ∧
      metaGetD (mkDocument p c).metadata "file_type" "" =
        (if pySuffix (pathName p.data) = [] then "unknown"
         else String.mk (pyLower ((pySuffix (pathName p.data)).drop 1))) := by
  constructor
  · simpa [load_documents] using load_documents_go fs docs_paths []
  · intro p c
    refine ⟨rfl, rfl, rfl, ?_⟩
    have hred : metaGetD (mkDocument p c).metadata "file_type" "" =
        (if pyLower (pySuffix (pathName p.data)) ≠ [] then
          String.mk ((pyLower (pySuffix (pathName p.data))).drop 1) else "unknown") := rfl
    rw [hred]
    by_cases hs : pySuffix (pathName p.data) = []
    · simp [hs, pyLower]
    · have h1 : pyLower (pySuffix (pathName p.data)) ≠ [] := by
        simp [pyLower, hs]
      simp only [h1, if_pos, hs, if_neg, ne_eq, not_false_eq_true, if_true]
      exact congrArg String.mk (List.map_drop Char.toLower _ 1).symm

/-- Helper: the grouping loop of setup_vectorstore computes the three
filters of the document list by file_type. -/
theorem group_fold_filter (documents : List Document) (a b c : List Document) :
    documents.foldl
      (fun (g : List Document × List Document × List Document) doc =>
        let file_type := metaGetD doc.metadata "file_type" "unknown"
        if file_type = "md" then (g.1 ++ [doc], g.2.1, g.2.2)
        else if file_type = "py" then (g.1, g.2.1 ++ [doc], g.2.2)
        else (g.1, g.2.1, g.2.2 ++ [doc]))
      (a, b, c) =
    (a ++ documents.filter (fun d => metaGetD d.metadata "file_type" "unknown" == "md"),
     b ++ documents.filter (fun d => metaGetD d.metadata "file_type" "unknown" == "py"),
     c ++ documents.filter (fun d =>
        !(metaGetD d.metadata "file_type" "unknown" == "md") &&
        !(metaGetD d.metadata "file_type" "unknown" == "py"))) := by
  induction documents generalizing a b c with
  | nil => simp
  | cons d ds ih =>
    by_cases h1 : metaGetD d.metadata "file_type" "unknown" = "md"
    · simp [List.foldl_cons, List.filter_cons, h1, ih]
    · by_cases h2 : metaGetD d.metadata "file_type" "unknown" = "py" <;>
        simp [List.foldl_cons, List.filter_cons, h1, h2, ih]

/-- Helper: skipping an empty group before splitting changes nothing. -/
theorem flatMap_guard (l : List Document) (f : Document → List Document) :
    (if l ≠ [] then l.flatMap f else []) = l.flatMap f := by
  by_cases h : l = [] <;> simp [h]

/-- C2: setup_vectorstore raises ValueError exactly when no valid documents
were loaded; otherwise the FAISS store is built from exactly the union of
the Markdown-splitter chunks of the md documents, the Python-splitter
chunks of the py documents and the recursive-splitter chunks of the rest,
all splitters configured with chunk size 3000 and overlap 100. -/
theorem setup_vectorstore_spec
    (searchSem : List Document → String → Nat → List (Document × Int))
    (splitDoc : TextSplitter → Document → List Document)
    (fs : String → FileState) (self : CodeGenerationRAG) :
    (load_documents fs self.docs_paths = [] →
      setup_vectorstore searchSem splitDoc fs self =
        .error "No valid documents found to create the vector store.") ∧
    (load_documents fs self.docs_paths ≠ [] →
      setup_vectorstore searchSem splitDoc fs self =
        .ok { self with vectorstore := some (faiss_from_documents searchSem (
          ((load_documents fs self.docs_paths).filter
              (fun d => metaGetD d.metadata "file_type" "unknown" == "md")).flatMap
            (splitDoc ⟨.markdown, 3000, 100⟩) ++
          ((load_documents fs self.docs_paths).filter
              (fun d => metaGetD d.metadata "file_type" "unknown" == "py")).flatMap
            (splitDoc ⟨.python, 3000, 100⟩) ++
          ((load_documents fs self.docs_paths).filter
              (fun d => !(metaGetD d.metadata "file_type" "unknown" == "md") &&
                        !(metaGetD d.metadata "file_type" "unknown" == "py"))).flatMap
            (splitDoc ⟨.recursiveCharacter, 3000, 100⟩))) }) := by
  constructor
  · intro h
    simp [setup_vectorstore, h]
  · intro h
    simp only [setup_vectorstore, if_neg h, split_documents]
    rw [group_fold_filter (load_documents fs self.docs_paths) [] [] []]
    simp only [List.nil_append, flatMap_guard]

/-- Witness for C2 at a one-path filesystem where every path reads hello. -/
theorem setup_vectorstore_spec_witness :
    load_documents exampleFs exampleRag.docs_paths ≠ [] ∧
    setup_vectorstore exampleSearch exampleSplit exampleFs exampleRag =
      .ok { exampleRag with vectorstore := some (faiss_from_documents exampleSearch (
        ((load_documents exampleFs exampleRag.docs_paths).filter
            (fun d => metaGetD d.metadata "file_type" "unknown" == "md")).flatMap
          (exampleSplit ⟨.markdown, 3000, 100⟩) ++
        ((load_documents exampleFs exampleRag.docs_paths).filter
            (fun d => metaGetD d.metadata "file_type" "unknown" == "py")).flatMap
          (exampleSplit ⟨.python, 3000, 100⟩) ++
        ((load_documents exampleFs exampleRag.docs_paths).filter
            (fun d => !(metaGetD d.metadata "file_type" "unknown" == "md") &&
                      !(metaGetD d.metadata "file_type" "unknown" == "py"))).flatMap
          (exampleSplit ⟨.recursiveCharacter, 3000, 100⟩))) } :=
  ⟨by decide,
   (setup_vectorstore_spec exampleSearch exampleSplit exampleFs exampleRag).2 (by decide)⟩

/-- C4: query_vectorstore raises ValueError exactly when the vector store is
not set up; otherwise it returns the similarity search results in order,
each formatted with content, score, and source and filename defaulting to
Unknown when absent from the document metadata. -/
theorem query_vectorstore_spec (self : CodeGenerationRAG) (query : String) (k : Nat) :
    (query_vectorstore self query k =
        Except.error "Vector store is not initialized. Call setup_vectorstore first." ↔
      self.vectorstore = none) ∧
    ∀ vs, self.vectorstore = some vs →
      query_vectorstore self query k =
        .ok ((vs.search query k).map (fun ds =>
          { content := ds.1.page_content, score := ds.2,
            source := (ds.1.metadata.lookup "source").getD "Unknown",
            filename := (ds.1.metadata.lookup "filename").getD "Unknown" })) := by
  constructor
  · cases h : self.vectorstore <;> simp [query_vectorstore, h]
  · intro vs h
    simp [query_vectorstore, h, metaGetD]

/-- Witness for C4 at a concrete store whose search returns one document
lacking filename metadata. -/
theorem query_vectorstore_spec_witness :
    query_vectorstore exampleRagReady "q" 3 =
      .ok [{ content := "content", score := 7, source := "docs/a.md", filename := "Unknown" }] := by
  have h := (query_vectorstore_spec exampleRagReady "q" 3).2 exampleStore rfl
  exact h.trans (congrArg Except.ok (by decide))

/-- C6: the agent built by create_agent carries a tool registry with exactly
two tools, query_documentation wired to the vector store query closure and
execute_python wired to the code execution closure, and its iteration limit
max_iterations is 15. -/
theorem create_agent_spec (rag : CodeGenerationRAG) (example_context system_prompt_text : String) :
    ((create_agent rag example_context system_prompt_text).2.tool_registry.tools.map
        BaseTool.name) = ["query_documentation", "execute_python"] ∧
    ((create_agent rag example_context system_prompt_text).2.tool_registry.tools.map
        BaseTool.fn) = [ToolImpl.queryDocsForCode rag, ToolImpl.executeCode] ∧
    (create_agent rag example_context system_prompt_text).2.max_iterations = 15 :=
  ⟨rfl, rfl, rfl⟩

/-- Helper: the extraction loop followed by finalization renders exactly the
blocks found by the two-phase scan, for any state in which an exited fence
has an empty collection. -/
theorem foldl_extractStep_eq_scanBlocks (ls : List PyStr) :
    ∀ st : ExtractState, (st.in_code_block = false → st.current_code_block = []) →
    finalizeExtract (ls.foldl extractStep st) =
      st.extracted_code ++
        renderScan (scanBlocks ls st.in_code_block st.language st.current_code_block) := by
  induction ls with
  | nil =>
    intro st hinv
    cases hb : st.in_code_block with
    | false =>
      have hc := hinv hb
      simp [finalizeExtract, scanBlocks, renderScan, renderClosedBlocks,
        renderUnclosedBlock, hb, hc]
    | true =>
      by_cases hcur : st.current_code_block = []
      · simp [finalizeExtract, scanBlocks, renderScan, renderClosedBlocks,
          renderUnclosedBlock, hb, hcur]
      · simp [finalizeExtract, scanBlocks, renderScan, renderClosedBlocks,
          renderUnclosedBlock, hb, hcur]
  | cons l ls ih =>
    intro st hinv
    rw [List.foldl_cons]
    by_cases hf : pyStartsWith "```".data l = true
    · by_cases hb : st.in_code_block = true
      · by_cases hcur : st.current_code_block = []
        · have hstep : extractStep st l = { st with in_code_block := false } := by
            simp [extractStep, hf, hb, hcur]
          rw [hstep, ih { st with in_code_block := false } (fun _ => hcur)]
          simp [scanBlocks, hf, hb, hcur]
        · have hstep : extractStep st l =
              { in_code_block := false, current_code_block := [], language := [],
                extracted_code := st.extracted_code ++ blockHeader st.language ++
                  List.intercalate ['\n'] st.current_code_block ++ "\n\n".data } := by
            simp [extractStep, hf, hb, hcur]
          rw [hstep, ih { in_code_block := false,
                          current_code_block := [],
                          language := [],
                          extracted_code := st.extracted_code ++ blockHeader st.language ++
                            List.intercalate ['\n'] st.current_code_block ++ "\n\n".data }
              (fun _ => rfl)]
          simp [scanBlocks, hf, hb, hcur, renderScan, renderClosedBlocks, List.append_assoc]
      · have hb' : st.in_code_block = false := by simpa using hb
        have hstep : extractStep st l =
            { st with
              in_code_block := true,
              language := if 3 < l.length then pyStrip (l.drop 3) else st.language } := by
          simp [extractStep, hf, hb']
        rw [hstep, ih { st with
              in_code_block := true,
              language := if 3 < l.length then pyStrip (l.drop 3) else st.language }
            (fun h => by simp at h)]
        simp [scanBlocks, hf, hb']
    · by_cases hb : st.in_code_block = true
      · have hstep : extractStep st l =
            { st with current_code_block := st.current_code_block ++ [l] } := by
          simp [extractStep, hf, hb]
        rw [hstep, ih { st with current_code_block := st.current_code_block ++ [l] }
            (fun h => by rw [hb] at h; exact absurd h (by simp))]
        simp [scanBlocks, hf, hb]
      · have hb' : st.in_code_block = false := by simpa using hb
        have hstep : extractStep st l = st := by
          simp [extractStep, hf, hb']
        rw [hstep, ih st hinv]
        simp [scanBlocks, hf, hb']

/-- C8 counterexample: on a response with an empty tagged block followed by
an untagged block, the code prefixes the second block with the first
block's language header, while the claim predicts no header because no
language tag followed that block's opening fence. -/
theorem extract_language_leak :
    extract_code_blocks "```python\n```\n```\nx\n```".data =
      "# Code block - python\nx\n\n".data ∧
    claim_extract "```python\n```\n```\nx\n```".data = "x\n\n".data ∧
    extract_code_blocks "```python\n```\n```\nx\n```".data ≠
      claim_extract "```python\n```\n```\nx\n```".data :=
  ⟨by decide, by decide, by decide⟩

/-- C8 amended: the extraction returns the line runs strictly between fence
lines, in order, plus a final unclosed run, each nonempty block preceded by
the language header of the most recent fence tag not yet consumed by a
nonempty closed block, with the fixed fallback message when the rendered
text is empty or whitespace. -/
theorem extract_code_blocks_amended (raw : PyStr) :
    extract_code_blocks raw = amended_extract raw := by
  simp only [extract_code_blocks, amended_extract, finalizeScanned]
  rw [foldl_extractStep_eq_scanBlocks (pySplitOn '\n' raw) ⟨false, [], [], []⟩ (fun _ => rfl)]
  simp

/-! ## Theorem about main.py -/

/-- C1 (code bug): running the command line entry point in code mode never
writes generated_code.py. The call on line 136 of main.py evaluates the
attribute problem_statement.docs_paths on the problem statement string (a
period mistyped for a comma), which raises AttributeError before any
generation or write; concretely, with an existing documentation directory
containing a markdown file and a writable output directory, the run ends in
the raised AttributeError. -/
theorem main_code_mode_never_writes :
    (∀ (env : Env) (args : CodeArgs) (w : List String),
      main_code_mode env args ≠ .completed w) ∧
    main_code_mode
      { path_exists := fun _ => true, is_dir := fun _ => true, mkdir_ok := fun _ => true,
        walk_files := fun _ => ["docs/a.md"], write_ok := fun _ => true }
      { docs_dir := "docs", examples_dir := none,
        problem_statement := "Build a multi-agent chatbot", output_dir := "out" } =
      .raised (.attributeError "str" "docs_paths") := by
  constructor
  · intro env args w
    simp only [main_code_mode, strGetattr]
    split
    · simp
    · split
      · simp
      · split <;> simp
  · decide
